import Mathlib

/-!
Verification of the SMTP agent/client/server repository
(`parse.py`, `message.py`, `server.py`, `email.py`, `exceptions.py`).

Strings are embedded as `List Char`.  Python's exception-based parsers become
functions `List Char → Except PyErr (List Char)` returning the unparsed
remainder of the input (mirroring the mutable `RemainingString` cursor) or the
raised exception.  Every `try/except` block of the source is an explicit match
on the error constructor; an exception class that a `try` block does not catch
is passed through unchanged, exactly as in Python.
-/

/-- The exception hierarchy of `exceptions.py` that the parsing layer can
raise: `ConsumptionError`, `ParsingError(name)`, and its two subclasses
`MessageParsingError(name)` and `ParameterArgumentParsingError(name)`.
A Python `except ParsingError` clause catches the latter three; an
`except ConsumptionError` clause catches only the first. -/
inductive PyErr : Type where
  | consumptionError : PyErr
  | parsingError : String → PyErr
  | messageParsingError : String → PyErr
  | paramArgParsingError : String → PyErr
deriving DecidableEq, Repr

/-- Result of running one parsing function: the remaining (unconsumed) input,
or the exception it raised. -/
abbrev PRes := Except PyErr (List Char)

deriving instance DecidableEq for Except

/-- Space or tab, the `<SP>` class of the grammar (regex `[ \t]`). -/
def isSP (c : Char) : Bool := c = ' ' || c = '\t'

/-- Regex class `[A-Za-z]`. -/
def isLetterChar (c : Char) : Bool :=
  ('A' ≤ c && c ≤ 'Z') || ('a' ≤ c && c ≤ 'z')

/-- Regex class `[A-Za-z0-9]`. -/
def isAlnumChar (c : Char) : Bool := isLetterChar c || ('0' ≤ c && c ≤ '9')

/-- Regex class `[ -~]` used by `parse_arbitrary_text` (printable ASCII). -/
def isPrintableChar (c : Char) : Bool := ' ' ≤ c && c ≤ '~'

/-- The negated character class `[^<>()[\]\\.,;:@" \t\n]` of `parse_string`. -/
def isStringChar (c : Char) : Bool :=
  !(c = '<' || c = '>' || c = '(' || c = ')' || c = '[' || c = ']' ||
    c = '\\' || c = '.' || c = ',' || c = ';' || c = ':' || c = '@' ||
    c = '\"' || c = ' ' || c = '\t' || c = '\n')

/-- `consume` of `parse.py` applied to a literal pattern (none of the literal
patterns used by the source contain regex metacharacters): match the literal
at the start of the remaining string and drop it, or raise
`ConsumptionError`. -/
def consumeLit : List Char → List Char → PRes
  | [], s => .ok s
  | _ :: _, [] => .error .consumptionError
  | a :: l, b :: s => if a = b then consumeLit l s else .error .consumptionError

/-- `consume` of `parse.py` applied to a one-or-more character-class pattern
(`[ \t]+`, `[ -~]+`, `[^...]+`): greedy maximal munch, raising
`ConsumptionError` when zero characters match (regex `re.match` fails). -/
def consumeClass1 (p : Char → Bool) (s : List Char) : PRes :=
  match s.takeWhile p with
  | [] => .error .consumptionError
  | _ :: _ => .ok (s.dropWhile p)

/-- `parse_whitespace` : `consume("[ \t]+")`, translating failure into
`ParsingError("whitespace")`. -/
def parse_whitespace (s : List Char) : PRes :=
  match consumeClass1 isSP s with
  | .error .consumptionError => .error (.parsingError "whitespace")
  | r => r

/-- `parse_nullspace` : `consume("[ \t]*")`, which never fails. -/
def parse_nullspace (s : List Char) : PRes :=
  .ok (s.dropWhile isSP)

/-- `parse_CRLF` : `consume("\n")`, translating failure into
`ParsingError("CRLF")`. -/
def parse_CRLF (s : List Char) : PRes :=
  match consumeLit ['\n'] s with
  | .error .consumptionError => .error (.parsingError "CRLF")
  | r => r

/-- `parse_arbitrary_text` : `consume("[ -~]+")`, translating failure into
`ParsingError("arbitrary-text")`. -/
def parse_arbitrary_text (s : List Char) : PRes :=
  match consumeClass1 isPrintableChar s with
  | .error .consumptionError => .error (.parsingError "arbitrary-text")
  | r => r

/-- `parse_string` : `consume` of the negated class, translating failure into
`ParsingError("string")`. -/
def parse_string (s : List Char) : PRes :=
  match consumeClass1 isStringChar s with
  | .error .consumptionError => .error (.parsingError "string")
  | r => r

/-- `parse_local_part` : delegates to `parse_string`. -/
def parse_local_part (s : List Char) : PRes := parse_string s

/-- The `(\.([A-Za-z][A-Za-z0-9]*))*` tail of the domain regex of
`parse_domain`, entered immediately after a complete `[A-Za-z][A-Za-z0-9]*`
element has been munched; `domLoop` consumes the rest of the current
element's `[A-Za-z0-9]*` run and then greedily repeats `"." element`.
Each starred iteration of the Python regex either matches a full
`\.[A-Za-z][A-Za-z0-9]*` group or is given back whole, which is exactly the
all-or-nothing backtracking `re.match` performs on this pattern. -/
def domLoop : List Char → List Char
  | [] => []
  | c :: r =>
    if isAlnumChar c then domLoop r
    else if c = '.' then
      match r with
      | [] => c :: r
      | d :: r2 => if isLetterChar d then domLoop r2 else c :: r
    else c :: r

/-- `parse_domain` :
`consume("([A-Za-z][A-Za-z0-9]*)(\.([A-Za-z][A-Za-z0-9]*))*")`, translating
failure into `ParsingError("domain")`.  The regex fails exactly when the
input does not start with a letter. -/
def parse_domain (s : List Char) : PRes :=
  match s with
  | [] => .error (.parsingError "domain")
  | c :: r =>
    if isLetterChar c then .ok (domLoop r) else .error (.parsingError "domain")

/-- Sequencing of two parsing steps sharing the cursor: run the first; if
it raised, the exception propagates, otherwise the second runs on the
remainder.  This is Python's ordinary sequential statement execution. -/
def pseq (r : PRes) (f : List Char → PRes) : PRes :=
  match r with
  | .ok s => f s
  | .error e => .error e

/-- `parse_mailbox` : local-part, then `consume("@")` (failure becomes
`ParsingError("mailbox")`), then domain. -/
def parse_mailbox (s : List Char) : PRes :=
  pseq (parse_local_part s) fun s1 =>
    pseq (match consumeLit ['@'] s1 with
          | .error .consumptionError => .error (.parsingError "mailbox")
          | r => r) fun s2 =>
      parse_domain s2

/-- `parse_path` : `consume("<")`, mailbox, `consume(">")`, the consumption
failures becoming `ParsingError("path")`. -/
def parse_path (s : List Char) : PRes :=
  pseq (match consumeLit ['<'] s with
        | .error .consumptionError => .error (.parsingError "path")
        | r => r) fun s1 =>
    pseq (parse_mailbox s1) fun s2 =>
      match consumeLit ['>'] s2 with
      | .error .consumptionError => .error (.parsingError "path")
      | r => r

/-- `parse_reverse_path` : delegates to `parse_path`. -/
def parse_reverse_path (s : List Char) : PRes := parse_path s

/-- `parse_forward_path` : delegates to `parse_path`. -/
def parse_forward_path (s : List Char) : PRes := parse_path s

/-- The Python clause `except ParsingError as e: raise
ParameterArgumentParsingError(str(e))`: the three `ParsingError` classes are
converted, keeping the production name; `ConsumptionError` (not a
`ParsingError`) and success pass through. -/
def asParamArgErr : PRes → PRes
  | .error (.parsingError n) => .error (.paramArgParsingError n)
  | .error (.messageParsingError n) => .error (.paramArgParsingError n)
  | .error (.paramArgParsingError n) => .error (.paramArgParsingError n)
  | r => r

/-- The Python clauses `except ConsumptionError: raise
MessageParsingError(kw)` followed by `except ParsingError as e: raise
MessageParsingError(str(e))` used by the keyword blocks of
`parse_mail_from_cmd` and `parse_rcpt_to_cmd`. -/
def asMsgErr (kw : String) : PRes → PRes
  | .error .consumptionError => .error (.messageParsingError kw)
  | .error (.parsingError n) => .error (.messageParsingError n)
  | .error (.messageParsingError n) => .error (.messageParsingError n)
  | .error (.paramArgParsingError n) => .error (.messageParsingError n)
  | r => r

/-- The lookahead test of `parse_helo_msg` / `parse_data_cmd` /
`parse_quit_cmd`: no character left, or the next is space, tab or newline. -/
def lookaheadOk (s : List Char) : Bool :=
  match s with
  | [] => true
  | c :: _ => c = ' ' || c = '\t' || c = '\n'

/-- `parse_helo_msg` : consume `"HELO"` (failure:
`MessageParsingError("helo-msg")`); lookahead; on success parse
whitespace, arbitrary-text, nullspace, CRLF with failures converted to
`ParameterArgumentParsingError`; on lookahead failure raise
`MessageParsingError("helo-msg")`. -/
def parse_helo_msg (s : List Char) : PRes :=
  match consumeLit ['H', 'E', 'L', 'O'] s with
  | .error .consumptionError => .error (.messageParsingError "helo-msg")
  | .error e => .error e
  | .ok s1 =>
    if lookaheadOk s1 then
      asParamArgErr
        (pseq (parse_whitespace s1) fun s2 =>
          pseq (parse_arbitrary_text s2) fun s3 =>
            pseq (parse_nullspace s3) fun s4 => parse_CRLF s4)
    else .error (.messageParsingError "helo-msg")

/-- `parse_mail_from_cmd` : consume `"MAIL"`, whitespace, `"FROM:"` with
failures converted to `MessageParsingError`; then nullspace, reverse-path,
nullspace, CRLF with failures converted to
`ParameterArgumentParsingError`. -/
def parse_mail_from_cmd (s : List Char) : PRes :=
  match asMsgErr "mail-from-cmd"
      (pseq (consumeLit ['M', 'A', 'I', 'L'] s) fun s1 =>
        pseq (parse_whitespace s1) fun s2 =>
          consumeLit ['F', 'R', 'O', 'M', ':'] s2) with
  | .error e => .error e
  | .ok s3 =>
    asParamArgErr
      (pseq (parse_nullspace s3) fun s4 =>
        pseq (parse_reverse_path s4) fun s5 =>
          pseq (parse_nullspace s5) fun s6 => parse_CRLF s6)

/-- `parse_rcpt_to_cmd` : consume `"RCPT"`, whitespace, `"TO:"` with failures
converted to `MessageParsingError`; then nullspace, forward-path, nullspace,
CRLF with failures converted to `ParameterArgumentParsingError`. -/
def parse_rcpt_to_cmd (s : List Char) : PRes :=
  match asMsgErr "rcpt-to-cmd"
      (pseq (consumeLit ['R', 'C', 'P', 'T'] s) fun s1 =>
        pseq (parse_whitespace s1) fun s2 =>
          consumeLit ['T', 'O', ':'] s2) with
  | .error e => .error e
  | .ok s3 =>
    asParamArgErr
      (pseq (parse_nullspace s3) fun s4 =>
        pseq (parse_forward_path s4) fun s5 =>
          pseq (parse_nullspace s5) fun s6 => parse_CRLF s6)

/-- `parse_data_cmd` : consume `"DATA"` (failure:
`MessageParsingError("data-cmd")`); lookahead; on success parse nullspace
and CRLF with failures converted to `ParameterArgumentParsingError`; on
lookahead failure raise `MessageParsingError("data-cmd")`. -/
def parse_data_cmd (s : List Char) : PRes :=
  match consumeLit ['D', 'A', 'T', 'A'] s with
  | .error .consumptionError => .error (.messageParsingError "data-cmd")
  | .error e => .error e
  | .ok s1 =>
    if lookaheadOk s1 then
      asParamArgErr
        (pseq (parse_nullspace s1) fun s2 => parse_CRLF s2)
    else .error (.messageParsingError "data-cmd")

/-- `parse_quit_cmd` : consume `"QUIT"` (failure:
`MessageParsingError("quit-cmd")`); lookahead; on success parse nullspace
and CRLF with failures converted to `ParameterArgumentParsingError`; on
lookahead failure raise `MessageParsingError("quit-cmd")`. -/
def parse_quit_cmd (s : List Char) : PRes :=
  match consumeLit ['Q', 'U', 'I', 'T'] s with
  | .error .consumptionError => .error (.messageParsingError "quit-cmd")
  | .error e => .error e
  | .ok s1 =>
    if lookaheadOk s1 then
      asParamArgErr
        (pseq (parse_nullspace s1) fun s2 => parse_CRLF s2)
    else .error (.messageParsingError "quit-cmd")

/-- `parse_220_resp_code_msg` : consume `"220"` (failure:
`ParsingError("server-greeting")`), then whitespace, arbitrary-text, CRLF,
whose failures propagate as they are. -/
def parse_220_resp_code_msg (s : List Char) : PRes :=
  pseq (match consumeLit ['2', '2', '0'] s with
        | .error .consumptionError => .error (.parsingError "server-greeting")
        | r => r) fun s1 =>
    pseq (parse_whitespace s1) fun s2 =>
      pseq (parse_arbitrary_text s2) fun s3 => parse_CRLF s3

/-- `parse_221_resp_code_msg` : consume `"221"` (failure:
`ParsingError("250-resp-code-msg")`, the name the source uses here), then
whitespace, arbitrary-text, CRLF. -/
def parse_221_resp_code_msg (s : List Char) : PRes :=
  pseq (match consumeLit ['2', '2', '1'] s with
        | .error .consumptionError => .error (.parsingError "250-resp-code-msg")
        | r => r) fun s1 =>
    pseq (parse_whitespace s1) fun s2 =>
      pseq (parse_arbitrary_text s2) fun s3 => parse_CRLF s3

/-- `parse_250_resp_code_msg` : consume `"250"` (failure:
`ParsingError("250-resp-code-msg")`), then whitespace, arbitrary-text,
CRLF. -/
def parse_250_resp_code_msg (s : List Char) : PRes :=
  pseq (match consumeLit ['2', '5', '0'] s with
        | .error .consumptionError => .error (.parsingError "250-resp-code-msg")
        | r => r) fun s1 =>
    pseq (parse_whitespace s1) fun s2 =>
      pseq (parse_arbitrary_text s2) fun s3 => parse_CRLF s3

/-- `parse_354_resp_code_msg` : consume `"354"` (failure:
`ParsingError("250-resp-code-msg")`, the name the source uses here), then
whitespace, arbitrary-text, CRLF. -/
def parse_354_resp_code_msg (s : List Char) : PRes :=
  pseq (match consumeLit ['3', '5', '4'] s with
        | .error .consumptionError => .error (.parsingError "250-resp-code-msg")
        | r => r) fun s1 =>
    pseq (parse_whitespace s1) fun s2 =>
      pseq (parse_arbitrary_text s2) fun s3 => parse_CRLF s3

/-! ## The command classifier (`message.py`) -/

/-- The message types of `Message` (`_UNRECOGNIZED` .. `_QUIT`). -/
inductive MsgKind : Type where
  | unrecognized : MsgKind
  | helo : MsgKind
  | mailFrom : MsgKind
  | rcptTo : MsgKind
  | data : MsgKind
  | quit : MsgKind
deriving DecidableEq, Repr

/-- The observable fields of a constructed `Message` object:
`_msg_type` and `_param_arg_error`. -/
structure Msg : Type where
  kind : MsgKind
  param_arg_error : Bool
deriving DecidableEq, Repr

/-- `Message.is_recognized`. -/
def Msg.is_recognized (m : Msg) : Bool := !(m.kind = MsgKind.unrecognized)

/-- `Message.is_helo_msg`. -/
def Msg.is_helo_msg (m : Msg) : Bool := m.kind = MsgKind.helo

/-- `Message.is_mail_from_cmd`. -/
def Msg.is_mail_from_cmd (m : Msg) : Bool := m.kind = MsgKind.mailFrom

/-- `Message.is_rcpt_to_cmd`. -/
def Msg.is_rcpt_to_cmd (m : Msg) : Bool := m.kind = MsgKind.rcptTo

/-- `Message.is_data_cmd`. -/
def Msg.is_data_cmd (m : Msg) : Bool := m.kind = MsgKind.data

/-- `Message.is_quit_cmd`. -/
def Msg.is_quit_cmd (m : Msg) : Bool := m.kind = MsgKind.quit

/-- `Message.has_valid_params_args` : `not self._param_arg_error`. -/
def Msg.has_valid_params_args (m : Msg) : Bool := !m.param_arg_error

/-- One `# Attempt init as ...` block of `Message.__init__`: on
`MessageParsingError` fall through to the next attempt, on
`ParameterArgumentParsingError` finish with this kind and the error flag set,
on success finish with this kind and the flag clear; any other exception
(`ConsumptionError` or a bare `ParsingError`, which the block does not catch)
propagates out of the constructor. -/
def attemptAs (k : MsgKind) (res : PRes) (next : Except PyErr Msg) :
    Except PyErr Msg :=
  match res with
  | .error (.messageParsingError _) => next
  | .error (.paramArgParsingError _) => .ok ⟨k, true⟩
  | .error e => .error e
  | .ok _ => .ok ⟨k, false⟩

/-- `Message.__init__` on message string `s`: try the five command grammars
in the fixed order HELO, MAIL-FROM, RCPT-TO, DATA, QUIT, defaulting to
`_UNRECOGNIZED` with `_param_arg_error = False`.  The value is `.error e`
exactly when the Python constructor would let exception `e` escape. -/
def classifyExc (s : List Char) : Except PyErr Msg :=
  attemptAs .helo (parse_helo_msg s)
    (attemptAs .mailFrom (parse_mail_from_cmd s)
      (attemptAs .rcptTo (parse_rcpt_to_cmd s)
        (attemptAs .data (parse_data_cmd s)
          (attemptAs .quit (parse_quit_cmd s)
            (.ok ⟨.unrecognized, false⟩)))))

/-- The constructed `Message` for line `s`.  The `.error` branch is
unreachable (the totality theorem for claim C5 proves `classifyExc` never
returns it); the default it supplies is never observed. -/
def classify (s : List Char) : Msg :=
  match classifyExc s with
  | .ok m => m
  | .error _ => ⟨.unrecognized, false⟩

/-! ## The mail transaction (`email.py`, server-side fields) -/

/-- The server-side fields of an `Email` object: `_reverse_path`,
`_forward_paths` and `_message_lines` (set via `set_reverse_path`,
`add_forward_path` and `add_message_line`; `_subject` and
`_attachment_filename` are never touched by the server). -/
structure EmailData : Type where
  reverse_path : List Char
  forward_paths : List (List Char)
  message_lines : List (List Char)
deriving DecidableEq, Repr

/-- `Email.__init__`: all fields empty. -/
def EmailData.empty : EmailData := ⟨[], [], []⟩

/-- The prefix of `l` up to and including its last `'>'`, if any: the span a
greedy `.*>` ending a regex match covers. -/
def takeToLastGt : List Char → Option (List Char)
  | [] => none
  | c :: r =>
    match takeToLastGt r with
    | some t => some (c :: t)
    | none => if c = '>' then some [c] else none

/-- `re.search("<.*>", s)`: the match starts at the first `'<'` that is
followed, before the next newline (`.` does not match `"\n"`), by a `'>'`;
being greedy it extends to the last such `'>'`. -/
def searchAngle : List Char → Option (List Char)
  | [] => none
  | c :: rest =>
    if c = '<' then
      match takeToLastGt (rest.takeWhile (fun d => !(d = '\n'))) with
      | some t => some ('<' :: t)
      | none => searchAngle rest
    else searchAngle rest

/-- `re.search("<.*>", msg_str)[0]` as used by the server's MAIL-FROM and
RCPT-TO handlers.  When no match exists the Python subscript raises
`TypeError`; the handlers only reach this call on messages the classifier
accepted as a well-formed MAIL-FROM / RCPT-TO, which always contain a
bracketed path, so the `none` default below is unreachable there. -/
def extract_path (s : List Char) : List Char :=
  match searchAngle s with
  | some m => m
  | none => []

/-- `re.search("@.*>", forward_path)` of
`Email.domain_specific_forward_file_names`, same greedy semantics as
`searchAngle` anchored at the first `'@'`. -/
def searchAtGt : List Char → Option (List Char)
  | [] => none
  | c :: rest =>
    if c = '@' then
      match takeToLastGt (rest.takeWhile (fun d => !(d = '\n'))) with
      | some t => some ('@' :: t)
      | none => searchAtGt rest
    else searchAtGt rest

/-- `re.search("@.*>", forward_path)[0][1:-1]`: the domain-name slice of one
forward path (strip the leading `'@'` and trailing `'>'`).  The `none`
default stands for the `TypeError` Python would raise on a path without a
match, unreachable for paths accepted by RCPT-TO. -/
def domainOf (fp : List Char) : List Char :=
  match searchAtGt fp with
  | some m => (m.drop 1).dropLast
  | none => []

/-- `Email.domain_specific_forward_file_names`: the set of domain names among
the forward paths.  A Python `set` iterates in an unspecified order; it is
embedded as the duplicate-free list `List.dedup` produces, and theorems use
only its membership. -/
def domain_specific_forward_file_names (e : EmailData) : List (List Char) :=
  (e.forward_paths.map domainOf).dedup

/-- `Email.forward_file_ready_text_lines`: the lines the server writes to
each domain forward file.  The generator in the source yields exactly
`self._message_lines` and nothing else (its docstring promises `From:` and
`To:` header lines that the code does not produce). -/
def forward_file_ready_text_lines (e : EmailData) : List (List Char) :=
  e.message_lines

/-! ## The server state machine (`server.py`, `SMTP_server_engine`) -/

/-- The five states `STATE_0` .. `STATE_4` of the engine.  The spec names
them AwaitHelo, AwaitMailFrom, AwaitRcptTo, AwaitRcptToOrData,
AwaitDataLines in this order. -/
inductive SState : Type where
  | s0 : SState
  | s1 : SState
  | s2 : SState
  | s3 : SState
  | s4 : SState
deriving DecidableEq, Repr

/-- The fixed response messages the engine sends, named after the constants
of `server.py` (their text also carries host names taken from the
environment, which the tags abstract). -/
inductive Resp : Type where
  | clos_con_221 : Resp
  | helo_ack_250 : Resp
  | ok_250 : Resp
  | start_mail_354 : Resp
  | syn_com_unrec_err_500 : Resp
  | syn_param_arg_err_501 : Resp
  | bad_seq_com_err_503 : Resp
deriving DecidableEq, Repr

/-- `EOMD_SEQ = ".\n"`, the end-of-message-data line. -/
def eomd_seq : List Char := ['.', '\n']

/-- Effect of processing one complete message line: either the loop
continues with a new state, transaction, optional response sent, and
append-only file writes performed (one `(domain file name, lines)` pair per
domain forward file opened), or the engine sends the closing response,
closes the connection and leaves the session loop. -/
inductive StepResult : Type where
  | next : SState → EmailData → Option Resp →
      List (List Char × List (List Char)) → StepResult
  | close : Resp → StepResult
deriving DecidableEq, Repr

/-- The writes of the STATE_4 end-of-data branch: for each name in
`domain_specific_forward_file_names`, append every line of
`forward_file_ready_text_lines` to `"forward/" ++ name`. -/
def deliveries (e : EmailData) : List (List Char × List (List Char)) :=
  (domain_specific_forward_file_names e).map
    (fun d => (d, forward_file_ready_text_lines e))

/-- The body of the server session loop for one complete message string
`m`, at state `st` with current transaction `e`: lines 114-248 of
`server.py`, translated branch for branch. -/
def serverProcessMsg (st : SState) (e : EmailData) (m : List Char) :
    StepResult :=
  match st with
  | .s0 =>
    let msg := classify m
    if !msg.is_recognized then .next .s0 e (some .syn_com_unrec_err_500) []
    else if !msg.is_helo_msg then
      if msg.is_quit_cmd then
        if msg.has_valid_params_args then .close .clos_con_221
        else .next .s0 e (some .syn_param_arg_err_501) []
      else .next .s0 e (some .bad_seq_com_err_503) []
    else if !msg.has_valid_params_args then
      .next .s0 e (some .syn_param_arg_err_501) []
    else .next .s1 e (some .helo_ack_250) []
  | .s1 =>
    let msg := classify m
    if !msg.is_recognized then .next .s1 e (some .syn_com_unrec_err_500) []
    else if !msg.is_mail_from_cmd then
      if msg.is_quit_cmd then
        if msg.has_valid_params_args then .close .clos_con_221
        else .next .s1 e (some .syn_param_arg_err_501) []
      else .next .s1 e (some .bad_seq_com_err_503) []
    else if !msg.has_valid_params_args then
      .next .s1 e (some .syn_param_arg_err_501) []
    else
      .next .s2 ⟨extract_path m, e.forward_paths, e.message_lines⟩
        (some .ok_250) []
  | .s2 =>
    let msg := classify m
    if !msg.is_recognized then .next .s2 e (some .syn_com_unrec_err_500) []
    else if !msg.is_rcpt_to_cmd then
      if msg.is_quit_cmd then
        if msg.has_valid_params_args then .close .clos_con_221
        else .next .s2 e (some .syn_param_arg_err_501) []
      else .next .s2 e (some .bad_seq_com_err_503) []
    else if !msg.has_valid_params_args then
      .next .s2 e (some .syn_param_arg_err_501) []
    else
      .next .s3
        ⟨e.reverse_path, e.forward_paths ++ [extract_path m],
          e.message_lines⟩ (some .ok_250) []
  | .s3 =>
    let msg := classify m
    if !msg.is_recognized then .next .s3 e (some .syn_com_unrec_err_500) []
    else if msg.is_quit_cmd then
      if msg.has_valid_params_args then .close .clos_con_221
      else .next .s3 e (some .syn_param_arg_err_501) []
    else if msg.is_rcpt_to_cmd then
      if !msg.has_valid_params_args then
        .next .s3 e (some .syn_param_arg_err_501) []
      else
        .next .s3
          ⟨e.reverse_path, e.forward_paths ++ [extract_path m],
            e.message_lines⟩ (some .ok_250) []
    else if msg.is_data_cmd then
      if !msg.has_valid_params_args then
        .next .s3 e (some .syn_param_arg_err_501) []
      else .next .s4 e (some .start_mail_354) []
    else .next .s3 e (some .bad_seq_com_err_503) []
  | .s4 =>
    if m = eomd_seq then
      .next .s1 EmailData.empty (some .ok_250) (deliveries e)
    else
      .next .s4
        ⟨e.reverse_path, e.forward_paths, e.message_lines ++ [m]⟩ none []

/-! ## Connection-buffer framing

`server.py` drives the loop above through a per-connection buffer
(`sock_stream_rem_string`): it appends received chunks and only hands the
engine a message once the buffer `contains_complete_msg`, then
`consume_and_get_msg` removes exactly one line.  These three methods are
called on the `RemainingString` object but their definitions are not part
of the sources under `src/`; they are modelled from the spec below. -/

/-- Modelled from the spec: `RemainingString.contains_complete_msg`, absent
from `src/parse.py` though called by `server.py`.  Per the spec's framing
rule the session "only attempts classification once the buffer contains a
complete line terminator". -/
def contains_complete_msg (b : List Char) : Bool := b.contains '\n'

/-- Modelled from the spec: `RemainingString.consume_and_get_msg`, absent
from `src/parse.py` though called by `server.py`.  Per the spec it
"extracts and removes exactly one line (up to and including the
terminator)": the returned pair is that first line and the rest of the
buffer. -/
def consume_and_get_msg : List Char → List Char × List Char
  | [] => ([], [])
  | c :: rest =>
    if c = '\n' then ([c], rest)
    else
      let p := consume_and_get_msg rest
      (c :: p.1, p.2)

/-- One iteration of the inner `while True` loop of `server.py`
(lines 100-109): with buffer `b`, either receive a chunk and append it
(`RemainingString.append`, modelled from the spec as concatenation), or
extract one message and run the state machine on it.  The framing choice is
made before the state dispatch, so it is the same in every state. -/
inductive LoopOut : Type where
  | recvMore : SState → EmailData → List Char → LoopOut
  | processed : StepResult → List Char → LoopOut
deriving DecidableEq, Repr

/-- One loop iteration: `chunk` is what `recv_msg` would deliver if the
iteration reads from the socket. -/
def serverLoopIter (st : SState) (e : EmailData) (b chunk : List Char) :
    LoopOut :=
  if !contains_complete_msg b then .recvMore st e (b ++ chunk)
  else .processed (serverProcessMsg st e (consume_and_get_msg b).1)
    (consume_and_get_msg b).2

/-! ## The conversation driver (`email.py`, `Email.send`) -/

/-- `Email._get_helo_msg` : `"HELO " + getfqdn() + "\n"`; the host name
comes from the environment and is a parameter here. -/
def get_helo_msg (fqdn : List Char) : List Char :=
  ('H' :: 'E' :: 'L' :: 'O' :: ' ' :: fqdn) ++ ['\n']

/-- `Email._get_mail_from_cmd` : `"MAIL FROM: " + reverse_path + "\n"`. -/
def get_mail_from_cmd (rp : List Char) : List Char :=
  ("MAIL FROM: ".toList ++ rp) ++ ['\n']

/-- One element of `Email._get_rcpt_to_cmds` :
`"RCPT TO: " + forward_path + "\n"`. -/
def get_rcpt_to_cmd (fp : List Char) : List Char :=
  ("RCPT TO: ".toList ++ fp) ++ ['\n']

/-- `Email._get_data_cmd` : `"DATA\n"`. -/
def get_data_cmd : List Char := ['D', 'A', 'T', 'A', '\n']

/-- `Email._get_quit_cmd` : `"QUIT\n"`. -/
def get_quit_cmd : List Char := ['Q', 'U', 'I', 'T', '\n']

/-- Whether a parse attempt succeeded (no exception raised). -/
def pOk (r : PRes) : Bool :=
  match r with
  | .ok _ => true
  | .error _ => false

/-- The validator `Email._receive_and_validate` runs for an expected
`"220"` response: success of `parse_220_resp_code_msg`; on failure the
driver closes the connection and raises `SMTPBreakOfProtocolError`. -/
def ok220 (r : List Char) : Bool := pOk (parse_220_resp_code_msg r)

/-- Validator for an expected `"221"` response. -/
def ok221 (r : List Char) : Bool := pOk (parse_221_resp_code_msg r)

/-- Validator for an expected `"250"` response. -/
def ok250 (r : List Char) : Bool := pOk (parse_250_resp_code_msg r)

/-- Validator for an expected `"354"` response. -/
def ok354 (r : List Char) : Bool := pOk (parse_354_resp_code_msg r)

/-- The failure `Email.send` surfaces to its caller when a received response
fails to match the expected response-code grammar
(`SMTPBreakOfProtocolError` of `exceptions.py`). -/
inductive DrvErr : Type where
  | smtpBreakOfProtocol : DrvErr
deriving DecidableEq, Repr

/-- One lock-step stage of `Email.send`: the messages sent into the socket
during the stage, then the validator for the single response received at its
end. -/
abbrev Stage := List (List Char) × (List Char → Bool)

/-- The straight-line body of `Email.send` as its sequence of lock-step
stages: expect the 220 greeting; send HELO, expect 250; send MAIL FROM,
expect 250; send one RCPT TO per forward path, expect 250 after each; send
DATA, expect 354; send every data line then the end-of-data marker, expect
one 250; send QUIT, expect 221.  `dls` is the list of data lines the
(out-of-scope) MIME generator `_get_SMTP_MIME_message_data_lines`
produces. -/
def driverScript (fqdn rp : List Char) (fps dls : List (List Char)) :
    List Stage :=
  ([], ok220) ::
    ([get_helo_msg fqdn], ok250) ::
      ([get_mail_from_cmd rp], ok250) ::
        (fps.map (fun fp => ([get_rcpt_to_cmd fp], ok250)) ++
          [([get_data_cmd], ok354), (dls ++ [eomd_seq], ok250),
            ([get_quit_cmd], ok221)])

/-- Run the lock-step stages against the queue of responses the server will
deliver (`recv` on an exhausted queue yields the empty string, as a closed
peer does, and no grammar accepts it).  The result is the list of messages
actually sent, and `some smtpBreakOfProtocol` if a stage's response failed
its validator — in which case nothing after that stage is sent: the
exception aborts `Email.send` with no retry. -/
def runLockStep : List Stage → List (List Char) →
    List (List Char) × Option DrvErr
  | [], _ => ([], none)
  | (outs, chk) :: stages, resps =>
    if chk (resps.headD []) then
      let rest := runLockStep stages resps.tail
      (outs ++ rest.1, rest.2)
    else (outs, some .smtpBreakOfProtocol)

/-- `Email.send`, given the transaction fields and the environment host
name: run the driver script against the received responses. -/
def driverSend (fqdn rp : List Char) (fps dls resps : List (List Char)) :
    List (List Char) × Option DrvErr :=
  runLockStep (driverScript fqdn rp fps dls) resps

/-- The complete message sequence `Email.send` emits when every response
validates. -/
def driverAllMsgs (fqdn rp : List Char) (fps dls : List (List Char)) :
    List (List Char) :=
  get_helo_msg fqdn :: get_mail_from_cmd rp ::
    (fps.map get_rcpt_to_cmd ++
      (get_data_cmd :: (dls ++ [eomd_seq]) ++ [get_quit_cmd]))

/-- A completed transaction (used by the claim about delivery records):
reverse-path `<a@x.com>`, forward-path `<b@y.com>`, one data line
`"Hello world\n"`. -/
def c4_email : EmailData :=
  ⟨"<a@x.com>".toList, ["<b@y.com>".toList], ["Hello world\n".toList]⟩

/-- The five command keywords, in the classifier's priority order. -/
def command_keywords : List (List Char) :=
  [['H', 'E', 'L', 'O'], ['M', 'A', 'I', 'L'], ['R', 'C', 'P', 'T'],
    ['D', 'A', 'T', 'A'], ['Q', 'U', 'I', 'T']]

/-- The character class of the claim's valid mailbox local part: printable
ASCII excluding the special characters, space and tab.  Every such
character also lies in the (wider) `parse_string` class. -/
def isMailboxLocalChar (c : Char) : Bool := isPrintableChar c && isStringChar c

/-- A valid domain element of the grammar: a letter followed by letters and
digits. -/
def validElemB (e : List Char) : Bool :=
  match e with
  | [] => false
  | c :: r => isLetterChar c && r.all isAlnumChar

/-- The textual form of a dot-separated domain with the given elements. -/
def renderDomain : List (List Char) → List Char
  | [] => []
  | e :: rest => e ++ (rest.map (fun x => '.' :: x)).join

/-- The rendered path `<local@domain>` of the round-trip claim. -/
def render_path (lp : List Char) (elems : List (List Char)) : List Char :=
  '<' :: (lp ++ '@' :: (renderDomain elems ++ ['>']))

/-! ## Helper lemmas -/

@[simp] theorem pseq_ok (a : List Char) (f : List Char → PRes) :
    pseq (.ok a) f = f a := rfl

@[simp] theorem pseq_err (e : PyErr) (f : List Char → PRes) :
    pseq (.error e) f = .error e := rfl

theorem consumeLit_self_append (l t : List Char) :
    consumeLit l (l ++ t) = .ok t := by
  induction l with
  | nil => rfl
  | cons a l ih => simp [consumeLit, ih]

theorem takeWhile_append_of_all (p : Char → Bool) (l t : List Char)
    (h : l.all p = true) : (l ++ t).takeWhile p = l ++ t.takeWhile p := by
  induction l with
  | nil => simp
  | cons a l ih =>
    simp only [List.all_cons, Bool.and_eq_true] at h
    simp [List.takeWhile_cons, h.1, ih h.2]

theorem dropWhile_append_of_all (p : Char → Bool) (l t : List Char)
    (h : l.all p = true) : (l ++ t).dropWhile p = t.dropWhile p := by
  induction l with
  | nil => simp
  | cons a l ih =>
    simp only [List.all_cons, Bool.and_eq_true] at h
    simp [List.dropWhile_cons, h.1, ih h.2]

theorem dropWhile_of_takeWhile_nil (p : Char → Bool) (t : List Char)
    (h : t.takeWhile p = []) : t.dropWhile p = t := by
  cases t with
  | nil => rfl
  | cons d t =>
    by_cases hd : p d
    · simp [List.takeWhile_cons, hd] at h
    · simp [List.dropWhile_cons, hd]

theorem consumeClass1_strip (p : Char → Bool) (l t : List Char)
    (h : l.all p = true) (hne : l ≠ []) (ht : t.takeWhile p = []) :
    consumeClass1 p (l ++ t) = .ok t := by
  cases l with
  | nil => exact absurd rfl hne
  | cons a l =>
    unfold consumeClass1
    rw [takeWhile_append_of_all p _ t h, ht,
      dropWhile_append_of_all p _ t h, dropWhile_of_takeWhile_nil p t ht]
    simp

theorem consumeClass1_fail (p : Char → Bool) (t : List Char)
    (ht : t.takeWhile p = []) :
    consumeClass1 p t = .error .consumptionError := by
  rw [consumeClass1, ht]

theorem cg_append (b : List Char) :
    (consume_and_get_msg b).1 ++ (consume_and_get_msg b).2 = b := by
  induction b with
  | nil => rfl
  | cons c rest ih =>
    by_cases hc : c = '\n'
    · simp [consume_and_get_msg, hc]
    · simp [consume_and_get_msg, hc, ih]

theorem contains_nl_tail (c : Char) (rest : List Char)
    (h : (c :: rest).contains '\n' = true) (hc : ¬c = '\n') :
    rest.contains '\n' = true := by
  simp only [List.contains_cons] at h
  rcases Bool.or_eq_true_iff.mp h with h1 | h1
  · exact absurd (show c = '\n' from Eq.symm (by simpa using h1)) hc
  · exact h1

theorem cg_last (b : List Char) (h : b.contains '\n' = true) :
    (consume_and_get_msg b).1.getLast? = some '\n' := by
  induction b with
  | nil => simp at h
  | cons c rest ih =>
    by_cases hc : c = '\n'
    · simp [consume_and_get_msg, hc]
    · have ih2 := ih (contains_nl_tail c rest h hc)
      simp only [consume_and_get_msg, if_neg hc]
      cases hx : (consume_and_get_msg rest).1 with
      | nil => rw [hx] at ih2; simp at ih2
      | cons y ys =>
        rw [hx] at ih2
        simpa [List.getLast?_cons_cons] using ih2

theorem cg_no_inner_nl (b : List Char) (h : b.contains '\n' = true) :
    '\n' ∉ (consume_and_get_msg b).1.dropLast := by
  induction b with
  | nil => simp at h
  | cons c rest ih =>
    by_cases hc : c = '\n'
    · simp [consume_and_get_msg, hc]
    · have hr := contains_nl_tail c rest h hc
      have ih2 := ih hr
      simp only [consume_and_get_msg, if_neg hc]
      cases hx : (consume_and_get_msg rest).1 with
      | nil =>
        have := cg_last rest hr
        rw [hx] at this
        simp at this
      | cons y ys =>
        rw [hx] at ih2
        simp only [List.dropLast_cons₂, List.mem_cons, not_or]
        exact ⟨fun h1 => hc h1.symm, ih2⟩

/-! ## Claim C1 -/

/-- Claim C1: line framing is performed by the session over its connection
buffer, identically in every state (including AwaitDataLines): when the
buffer holds no complete line terminator the iteration only requests bytes
and appends the received chunk, and when it does the iteration extracts and
removes exactly one line — a prefix of the buffer ending in the terminator
and containing no earlier terminator — and classifies it, leaving the rest
buffered. -/
theorem c1_framing (st : SState) (e : EmailData) (b chunk : List Char) :
    (contains_complete_msg b = false →
      serverLoopIter st e b chunk = .recvMore st e (b ++ chunk)) ∧
    (contains_complete_msg b = true →
      serverLoopIter st e b chunk =
        .processed (serverProcessMsg st e (consume_and_get_msg b).1)
          (consume_and_get_msg b).2 ∧
      (consume_and_get_msg b).1 ++ (consume_and_get_msg b).2 = b ∧
      (consume_and_get_msg b).1.getLast? = some '\n' ∧
      '\n' ∉ (consume_and_get_msg b).1.dropLast) := by
  constructor
  · intro h
    simp [serverLoopIter, h]
  · intro h
    refine ⟨by simp [serverLoopIter, h], cg_append b, cg_last b h,
      cg_no_inner_nl b h⟩

/-- Witness for C1 at a concrete buffer: `"AB\nCD"` with incoming chunk
`"E"` is split into the line `"AB\n"` and remainder `"CD"`, and a buffer
without a terminator only accumulates. -/
theorem c1_framing_witness :
    contains_complete_msg ("AB\nCD".toList) = true ∧
    serverLoopIter .s4 EmailData.empty ("AB\nCD".toList) ("E".toList) =
      .processed
        (serverProcessMsg .s4 EmailData.empty
          (consume_and_get_msg ("AB\nCD".toList)).1)
        (consume_and_get_msg ("AB\nCD".toList)).2 ∧
    contains_complete_msg ("CD".toList) = false ∧
    serverLoopIter .s0 EmailData.empty ("CD".toList) ("E\n".toList) =
      .recvMore .s0 EmailData.empty ("CD".toList ++ "E\n".toList) :=
  ⟨by decide,
    ((c1_framing .s4 EmailData.empty ("AB\nCD".toList) ("E".toList)).2
      (by decide)).1,
    by decide,
    (c1_framing .s0 EmailData.empty ("CD".toList) ("E\n".toList)).1
      (by decide)⟩

/-! ## Claim C2 -/

/-- Claim C2 counterexample: in STATE_4 (AwaitDataLines) the engine does not
classify lines at all, so a well-formed QUIT line is appended to the
transaction's data lines and the session is not terminated — the claim's
"all five states, including AwaitDataLines" fails. -/
theorem c2_counterexample :
    serverProcessMsg .s4 EmailData.empty ("QUIT\n".toList) =
      .next .s4 ⟨[], [], ["QUIT\n".toList]⟩ none [] ∧
    serverProcessMsg .s4 EmailData.empty ("QUIT\n".toList) ≠
      .close .clos_con_221 := by
  decide

/-- Claim C2 amended: in each of the four command states (STATE_0 .. STATE_3)
a well-formed QUIT terminates the session with the closing (221) response
and a malformed QUIT leaves the state and transaction unchanged with the
parameter-error (501) response; in STATE_4 (AwaitDataLines) any line other
than the end-of-data marker — a QUIT line included — is appended verbatim to
the transaction's data lines. -/
theorem c2_amended (st : SState) (hst : st ≠ SState.s4) (e : EmailData)
    (m : List Char) :
    (classify m = ⟨.quit, false⟩ →
      serverProcessMsg st e m = .close .clos_con_221) ∧
    (classify m = ⟨.quit, true⟩ →
      serverProcessMsg st e m = .next st e (some .syn_param_arg_err_501) []) ∧
    (∀ e2 m2, m2 ≠ eomd_seq →
      serverProcessMsg .s4 e2 m2 =
        .next .s4 ⟨e2.reverse_path, e2.forward_paths,
          e2.message_lines ++ [m2]⟩ none []) := by
  refine ⟨fun h => ?_, fun h => ?_, fun e2 m2 h => ?_⟩
  · cases st with
    | s4 => exact absurd rfl hst
    | s0 =>
      simp [serverProcessMsg, h, Msg.is_recognized, Msg.is_helo_msg,
        Msg.is_quit_cmd, Msg.has_valid_params_args]
    | s1 =>
      simp [serverProcessMsg, h, Msg.is_recognized, Msg.is_mail_from_cmd,
        Msg.is_quit_cmd, Msg.has_valid_params_args]
    | s2 =>
      simp [serverProcessMsg, h, Msg.is_recognized, Msg.is_rcpt_to_cmd,
        Msg.is_quit_cmd, Msg.has_valid_params_args]
    | s3 =>
      simp [serverProcessMsg, h, Msg.is_recognized, Msg.is_quit_cmd,
        Msg.has_valid_params_args]
  · cases st with
    | s4 => exact absurd rfl hst
    | s0 =>
      simp [serverProcessMsg, h, Msg.is_recognized, Msg.is_helo_msg,
        Msg.is_quit_cmd, Msg.has_valid_params_args]
    | s1 =>
      simp [serverProcessMsg, h, Msg.is_recognized, Msg.is_mail_from_cmd,
        Msg.is_quit_cmd, Msg.has_valid_params_args]
    | s2 =>
      simp [serverProcessMsg, h, Msg.is_recognized, Msg.is_rcpt_to_cmd,
        Msg.is_quit_cmd, Msg.has_valid_params_args]
    | s3 =>
      simp [serverProcessMsg, h, Msg.is_recognized, Msg.is_quit_cmd,
        Msg.has_valid_params_args]
  · simp [serverProcessMsg, h]

/-- Witness for C2 (amended) at STATE_0: `"QUIT\n"` closes the session with
221, and `"QUIT x\n"` (recognized QUIT, malformed trailing content) keeps
the state with 501. -/
theorem c2_amended_witness :
    serverProcessMsg .s0 EmailData.empty ("QUIT\n".toList) =
      .close .clos_con_221 ∧
    serverProcessMsg .s0 EmailData.empty ("QUIT x\n".toList) =
      .next .s0 EmailData.empty (some .syn_param_arg_err_501) [] :=
  ⟨(c2_amended .s0 (by decide) EmailData.empty ("QUIT\n".toList)).1
      (by decide),
    (c2_amended .s0 (by decide) EmailData.empty ("QUIT x\n".toList)).2.1
      (by decide)⟩

/-! ## Claim C3 -/

/-- Claim C3 counterexample: `"HELO\n"` and `"HELO  \n"` classify as HELO
with the parameter/argument-error flag SET (`has_valid_params_args` is
false), because `parse_helo_msg` demands mandatory whitespace and a
non-empty argument after the keyword — the claim's `argumentsValid = true`
fails. -/
theorem c3_counterexample :
    classify ("HELO\n".toList) = ⟨.helo, true⟩ ∧
    (classify ("HELO\n".toList)).has_valid_params_args = false ∧
    classify ("HELO  \n".toList) = ⟨.helo, true⟩ := by
  decide

/-- Claim C3 amended: a line of the keyword HELO followed by only optional
trailing whitespace and the terminator classifies as kind HELO but with
`argumentsValid = false` (the parameter/argument-error flag set), since the
HELO grammar of the source requires whitespace and a non-empty
arbitrary-text argument before the terminator. -/
theorem c3_amended (ws : List Char) (h : ws.all isSP = true) :
    classify (('H' :: 'E' :: 'L' :: 'O' :: ws) ++ ['\n']) = ⟨.helo, true⟩ := by
  have hk : ('H' :: 'E' :: 'L' :: 'O' :: ws) ++ ['\n'] =
      ['H', 'E', 'L', 'O'] ++ (ws ++ ['\n']) := by simp
  rw [hk]
  cases ws with
  | nil =>
    decide
  | cons c ws2 =>
    have hsp : isSP c = true ∧ ws2.all isSP = true := by simpa using h
    have hws : parse_whitespace ((c :: ws2) ++ ['\n']) = .ok ['\n'] := by
      rw [parse_whitespace, consumeClass1_strip isSP (c :: ws2) ['\n']
        (by simpa using hsp) (by simp) (by decide)]
    have hla : lookaheadOk ((c :: ws2) ++ ['\n']) = true := by
      have : c = ' ' ∨ c = '\t' := by
        rcases Bool.or_eq_true_iff.mp hsp.1 with h1 | h1
        · exact Or.inl (by simpa using h1)
        · exact Or.inr (by simpa using h1)
      rcases this with h1 | h1 <;> simp [lookaheadOk, h1]
    have hhelo : parse_helo_msg (['H', 'E', 'L', 'O'] ++ ((c :: ws2) ++ ['\n'])) =
        .error (.paramArgParsingError "arbitrary-text") := by
      rw [parse_helo_msg]
      rw [consumeLit_self_append ['H', 'E', 'L', 'O'] ((c :: ws2) ++ ['\n'])]
      simp only [hla, if_true, hws, pseq_ok]
      decide
    simp only [List.cons_append, List.nil_append] at hhelo
    simp [classify, classifyExc, attemptAs, hhelo]

/-- Witness for C3 (amended) at `ws = " "`: `"HELO \n"` classifies as HELO
with the parameter/argument-error flag set. -/
theorem c3_amended_witness :
    classify (('H' :: 'E' :: 'L' :: 'O' :: [' ']) ++ ['\n']) = ⟨.helo, true⟩ :=
  c3_amended [' '] (by decide)

/-! ## Claim C4 -/

/-- Claim C4, evaluated at the failing input: on end-of-data the engine
appends to the `y.com` sink ONLY the accumulated data lines — the rendered
record produced by `forward_file_ready_text_lines` is exactly
`["Hello world\n"]` and contains neither the reverse-path line nor any
forward-path line, although the function's own docstring promises
`From:`/`To:` header lines.  The claim (and the spec's delivery-sink
contract) is right and the code wrong. -/
theorem c4_delivery_record :
    forward_file_ready_text_lines c4_email = ["Hello world\n".toList] ∧
    serverProcessMsg .s4 c4_email eomd_seq =
      .next .s1 EmailData.empty (some .ok_250)
        [("y.com".toList, ["Hello world\n".toList])] ∧
    ("<a@x.com>".toList ∈ forward_file_ready_text_lines c4_email) = False ∧
    ("<b@y.com>".toList ∈ forward_file_ready_text_lines c4_email) = False := by
  refine ⟨rfl, by decide, by simp [forward_file_ready_text_lines, c4_email], 
    by simp [forward_file_ready_text_lines, c4_email]⟩

/-! ## Claim C8 -/

/-- Claim C8: on receipt of the exact end-of-data marker in AwaitDataLines
the transaction is delivered, the 250 response is sent, the state becomes
AwaitMailFrom (STATE_1), and the live transaction is replaced by the fresh
empty one; consequently a well-formed MAIL FROM processed right after a
completed transaction operates on the empty transaction (empty
forward-paths, empty data lines), supporting sequential transactions
without a new HELO. -/
theorem c8_transaction_reset :
    (∀ e : EmailData, serverProcessMsg .s4 e eomd_seq =
      .next .s1 EmailData.empty (some .ok_250) (deliveries e)) ∧
    (∀ m : List Char, classify m = ⟨.mailFrom, false⟩ →
      serverProcessMsg .s1 EmailData.empty m =
        .next .s2 ⟨extract_path m, [], []⟩ (some .ok_250) []) := by
  constructor
  · intro e
    simp [serverProcessMsg]
  · intro m h
    simp [serverProcessMsg, h, Msg.is_recognized, Msg.is_mail_from_cmd,
      Msg.has_valid_params_args, EmailData.empty]

/-- Witness for C8 at `"MAIL FROM:<a@x.com>\n"` right after a completed
transaction: the new transaction holds only the just-parsed reverse path. -/
theorem c8_transaction_reset_witness :
    serverProcessMsg .s1 EmailData.empty ("MAIL FROM:<a@x.com>\n".toList) =
      .next .s2 ⟨extract_path ("MAIL FROM:<a@x.com>\n".toList), [], []⟩
        (some .ok_250) [] :=
  c8_transaction_reset.2 ("MAIL FROM:<a@x.com>\n".toList) (by decide)

/-! ## Claim C10 -/

/-- Claim C10: a line classified as Unrecognized always reports
`has_valid_params_args = true`; the parameter/argument-error flag is set
only on lines whose keyword was recognized. -/
theorem c10_unrecognized_args_valid (s : List Char)
    (h : (classify s).kind = .unrecognized) :
    (classify s).has_valid_params_args = true := by
  unfold classify classifyExc at h ⊢
  cases h1 : parse_helo_msg s with
  | ok v => simp [attemptAs, h1] at h
  | error e1 =>
    cases e1 with
    | consumptionError => simp [attemptAs, h1, Msg.has_valid_params_args]
    | parsingError n1 => simp [attemptAs, h1, Msg.has_valid_params_args]
    | paramArgParsingError n1 => simp [attemptAs, h1] at h
    | messageParsingError n1 =>
      cases h2 : parse_mail_from_cmd s with
      | ok v => simp [attemptAs, h1, h2] at h
      | error e2 =>
        cases e2 with
        | consumptionError =>
          simp [attemptAs, h1, h2, Msg.has_valid_params_args]
        | parsingError n2 =>
          simp [attemptAs, h1, h2, Msg.has_valid_params_args]
        | paramArgParsingError n2 => simp [attemptAs, h1, h2] at h
        | messageParsingError n2 =>
          cases h3 : parse_rcpt_to_cmd s with
          | ok v => simp [attemptAs, h1, h2, h3] at h
          | error e3 =>
            cases e3 with
            | consumptionError =>
              simp [attemptAs, h1, h2, h3, Msg.has_valid_params_args]
            | parsingError n3 =>
              simp [attemptAs, h1, h2, h3, Msg.has_valid_params_args]
            | paramArgParsingError n3 => simp [attemptAs, h1, h2, h3] at h
            | messageParsingError n3 =>
              cases h4 : parse_data_cmd s with
              | ok v => simp [attemptAs, h1, h2, h3, h4] at h
              | error e4 =>
                cases e4 with
                | consumptionError =>
                  simp [attemptAs, h1, h2, h3, h4, Msg.has_valid_params_args]
                | parsingError n4 =>
                  simp [attemptAs, h1, h2, h3, h4, Msg.has_valid_params_args]
                | paramArgParsingError n4 =>
                  simp [attemptAs, h1, h2, h3, h4] at h
                | messageParsingError n4 =>
                  cases h5 : parse_quit_cmd s with
                  | ok v => simp [attemptAs, h1, h2, h3, h4, h5] at h
                  | error e5 =>
                    cases e5 with
                    | consumptionError =>
                      simp [attemptAs, h1, h2, h3, h4, h5,
                        Msg.has_valid_params_args]
                    | parsingError n5 =>
                      simp [attemptAs, h1, h2, h3, h4, h5,
                        Msg.has_valid_params_args]
                    | paramArgParsingError n5 =>
                      simp [attemptAs, h1, h2, h3, h4, h5] at h
                    | messageParsingError n5 =>
                      simp [attemptAs, h1, h2, h3, h4, h5,
                        Msg.has_valid_params_args]

/-- Witness for C10 at the unrecognized line `"XYZ\n"`. -/
theorem c10_unrecognized_args_valid_witness :
    (classify ("XYZ\n".toList)).kind = .unrecognized ∧
    (classify ("XYZ\n".toList)).has_valid_params_args = true :=
  ⟨by decide, c10_unrecognized_args_valid ("XYZ\n".toList) (by decide)⟩

/-! ## Claim C5: outcome lemmas for each parsing function -/

theorem consumeLit_cases (l s : List Char) :
    (∃ t, consumeLit l s = .ok t) ∨
      consumeLit l s = .error .consumptionError := by
  induction l generalizing s with
  | nil => exact Or.inl ⟨s, rfl⟩
  | cons a l ih =>
    cases s with
    | nil => exact Or.inr rfl
    | cons b s =>
      by_cases hab : a = b
      · simpa [consumeLit, hab] using ih s
      · exact Or.inr (by simp [consumeLit, hab])

theorem consumeClass1_cases (p : Char → Bool) (s : List Char) :
    (∃ t, consumeClass1 p s = .ok t) ∨
      consumeClass1 p s = .error .consumptionError := by
  unfold consumeClass1
  cases s.takeWhile p with
  | nil => exact Or.inr rfl
  | cons a l => exact Or.inl ⟨s.dropWhile p, rfl⟩

theorem parse_whitespace_cases (s : List Char) :
    (∃ t, parse_whitespace s = .ok t) ∨
      parse_whitespace s = .error (.parsingError "whitespace") := by
  unfold parse_whitespace
  rcases consumeClass1_cases isSP s with ⟨t, h⟩ | h <;> rw [h]
  · exact Or.inl ⟨t, rfl⟩
  · exact Or.inr rfl

theorem parse_arbitrary_text_cases (s : List Char) :
    (∃ t, parse_arbitrary_text s = .ok t) ∨
      parse_arbitrary_text s = .error (.parsingError "arbitrary-text") := by
  unfold parse_arbitrary_text
  rcases consumeClass1_cases isPrintableChar s with ⟨t, h⟩ | h <;> rw [h]
  · exact Or.inl ⟨t, rfl⟩
  · exact Or.inr rfl

theorem parse_string_cases (s : List Char) :
    (∃ t, parse_string s = .ok t) ∨
      parse_string s = .error (.parsingError "string") := by
  unfold parse_string
  rcases consumeClass1_cases isStringChar s with ⟨t, h⟩ | h <;> rw [h]
  · exact Or.inl ⟨t, rfl⟩
  · exact Or.inr rfl

theorem parse_CRLF_cases (s : List Char) :
    (∃ t, parse_CRLF s = .ok t) ∨
      parse_CRLF s = .error (.parsingError "CRLF") := by
  unfold parse_CRLF
  rcases consumeLit_cases ['\n'] s with ⟨t, h⟩ | h <;> rw [h]
  · exact Or.inl ⟨t, rfl⟩
  · exact Or.inr rfl

theorem parse_domain_cases (s : List Char) :
    (∃ t, parse_domain s = .ok t) ∨
      parse_domain s = .error (.parsingError "domain") := by
  unfold parse_domain
  cases s with
  | nil => exact Or.inr rfl
  | cons c r =>
    by_cases hc : isLetterChar c
    · exact Or.inl ⟨domLoop r, by simp [hc]⟩
    · exact Or.inr (by simp [hc])

theorem parse_path_cases (s : List Char) :
    (∃ t, parse_path s = .ok t) ∨
      (∃ n, parse_path s = .error (.parsingError n)) := by
  rcases consumeLit_cases ['<'] s with ⟨t1, h1⟩ | h1
  · rcases parse_string_cases t1 with ⟨t2, h2⟩ | h2
    · rcases consumeLit_cases ['@'] t2 with ⟨t3, h3⟩ | h3
      · rcases parse_domain_cases t3 with ⟨t4, h4⟩ | h4
        · rcases consumeLit_cases ['>'] t4 with ⟨t5, h5⟩ | h5
          · exact Or.inl ⟨t5, by
              simp only [parse_path, parse_mailbox, parse_local_part, h1, h2,
                h3, h4, h5, pseq_ok, pseq_err]⟩
          · exact Or.inr ⟨"path", by
              simp only [parse_path, parse_mailbox, parse_local_part, h1, h2,
                h3, h4, h5, pseq_ok, pseq_err]⟩
        · exact Or.inr ⟨"domain", by
            simp only [parse_path, parse_mailbox, parse_local_part, h1, h2,
              h3, h4, pseq_ok, pseq_err]⟩
      · exact Or.inr ⟨"mailbox", by
          simp only [parse_path, parse_mailbox, parse_local_part, h1, h2, h3,
            pseq_ok, pseq_err]⟩
    · exact Or.inr ⟨"string", by
        simp only [parse_path, parse_mailbox, parse_local_part, h1, h2,
          pseq_ok, pseq_err]⟩
  · exact Or.inr ⟨"path", by
      simp only [parse_path, h1, pseq_ok, pseq_err]⟩

theorem parse_helo_msg_cases (s : List Char) :
    (∃ t, parse_helo_msg s = .ok t) ∨
      (∃ n, parse_helo_msg s = .error (.messageParsingError n)) ∨
      (∃ n, parse_helo_msg s = .error (.paramArgParsingError n)) := by
  rcases consumeLit_cases ['H', 'E', 'L', 'O'] s with ⟨t1, h1⟩ | h1
  · by_cases hla : lookaheadOk t1 = true
    · rcases parse_whitespace_cases t1 with ⟨t2, h2⟩ | h2
      · rcases parse_arbitrary_text_cases t2 with ⟨t3, h3⟩ | h3
        · rcases parse_CRLF_cases (t3.dropWhile isSP) with ⟨t4, h4⟩ | h4
          · exact Or.inl ⟨t4, by
              simp only [parse_helo_msg, h1, hla, if_true, parse_nullspace,
                h2, h3, h4, pseq_ok, pseq_err, asParamArgErr]⟩
          · exact Or.inr (Or.inr ⟨"CRLF", by
              simp only [parse_helo_msg, h1, hla, if_true, parse_nullspace,
                h2, h3, h4, pseq_ok, pseq_err, asParamArgErr]⟩)
        · exact Or.inr (Or.inr ⟨"arbitrary-text", by
            simp only [parse_helo_msg, h1, hla, if_true, h2, h3, pseq_ok,
              pseq_err, asParamArgErr]⟩)
      · exact Or.inr (Or.inr ⟨"whitespace", by
          simp only [parse_helo_msg, h1, hla, if_true, h2, pseq_ok, pseq_err,
            asParamArgErr]⟩)
    · exact Or.inr (Or.inl ⟨"helo-msg", by
        simp only [parse_helo_msg, h1, hla, if_false, Bool.false_eq_true]⟩)
  · exact Or.inr (Or.inl ⟨"helo-msg", by simp only [parse_helo_msg, h1]⟩)

theorem parse_mail_from_cmd_cases (s : List Char) :
    (∃ t, parse_mail_from_cmd s = .ok t) ∨
      (∃ n, parse_mail_from_cmd s = .error (.messageParsingError n)) ∨
      (∃ n, parse_mail_from_cmd s = .error (.paramArgParsingError n)) := by
  rcases consumeLit_cases ['M', 'A', 'I', 'L'] s with ⟨t1, h1⟩ | h1
  · rcases parse_whitespace_cases t1 with ⟨t2, h2⟩ | h2
    · rcases consumeLit_cases ['F', 'R', 'O', 'M', ':'] t2 with ⟨t3, h3⟩ | h3
      · rcases parse_path_cases (t3.dropWhile isSP) with ⟨t4, h4⟩ | ⟨n, h4⟩
        · rcases parse_CRLF_cases (t4.dropWhile isSP) with ⟨t5, h5⟩ | h5
          · exact Or.inl ⟨t5, by
              simp only [parse_mail_from_cmd, h1, h2, h3, pseq_ok, pseq_err,
                asMsgErr, parse_nullspace, parse_reverse_path, h4, h5,
                asParamArgErr]⟩
          · exact Or.inr (Or.inr ⟨"CRLF", by
              simp only [parse_mail_from_cmd, h1, h2, h3, pseq_ok, pseq_err,
                asMsgErr, parse_nullspace, parse_reverse_path, h4, h5,
                asParamArgErr]⟩)
        · exact Or.inr (Or.inr ⟨n, by
            simp only [parse_mail_from_cmd, h1, h2, h3, pseq_ok, pseq_err,
              asMsgErr, parse_nullspace, parse_reverse_path, h4,
              asParamArgErr]⟩)
      · exact Or.inr (Or.inl ⟨"mail-from-cmd", by
          simp only [parse_mail_from_cmd, h1, h2, h3, pseq_ok, pseq_err,
            asMsgErr]⟩)
    · exact Or.inr (Or.inl ⟨"whitespace", by
        simp only [parse_mail_from_cmd, h1, h2, pseq_ok, pseq_err, asMsgErr]⟩)
  · exact Or.inr (Or.inl ⟨"mail-from-cmd", by
      simp only [parse_mail_from_cmd, h1, pseq_ok, pseq_err, asMsgErr]⟩)

theorem parse_rcpt_to_cmd_cases (s : List Char) :
    (∃ t, parse_rcpt_to_cmd s = .ok t) ∨
      (∃ n, parse_rcpt_to_cmd s = .error (.messageParsingError n)) ∨
      (∃ n, parse_rcpt_to_cmd s = .error (.paramArgParsingError n)) := by
  rcases consumeLit_cases ['R', 'C', 'P', 'T'] s with ⟨t1, h1⟩ | h1
  · rcases parse_whitespace_cases t1 with ⟨t2, h2⟩ | h2
    · rcases consumeLit_cases ['T', 'O', ':'] t2 with ⟨t3, h3⟩ | h3
      · rcases parse_path_cases (t3.dropWhile isSP) with ⟨t4, h4⟩ | ⟨n, h4⟩
        · rcases parse_CRLF_cases (t4.dropWhile isSP) with ⟨t5, h5⟩ | h5
          · exact Or.inl ⟨t5, by
              simp only [parse_rcpt_to_cmd, h1, h2, h3, pseq_ok, pseq_err,
                asMsgErr, parse_nullspace, parse_forward_path, h4, h5,
                asParamArgErr]⟩
          · exact Or.inr (Or.inr ⟨"CRLF", by
              simp only [parse_rcpt_to_cmd, h1, h2, h3, pseq_ok, pseq_err,
                asMsgErr, parse_nullspace, parse_forward_path, h4, h5,
                asParamArgErr]⟩)
        · exact Or.inr (Or.inr ⟨n, by
            simp only [parse_rcpt_to_cmd, h1, h2, h3, pseq_ok, pseq_err,
              asMsgErr, parse_nullspace, parse_forward_path, h4,
              asParamArgErr]⟩)
      · exact Or.inr (Or.inl ⟨"rcpt-to-cmd", by
          simp only [parse_rcpt_to_cmd, h1, h2, h3, pseq_ok, pseq_err,
            asMsgErr]⟩)
    · exact Or.inr (Or.inl ⟨"whitespace", by
        simp only [parse_rcpt_to_cmd, h1, h2, pseq_ok, pseq_err, asMsgErr]⟩)
  · exact Or.inr (Or.inl ⟨"rcpt-to-cmd", by
      simp only [parse_rcpt_to_cmd, h1, pseq_ok, pseq_err, asMsgErr]⟩)

theorem parse_data_cmd_cases (s : List Char) :
    (∃ t, parse_data_cmd s = .ok t) ∨
      (∃ n, parse_data_cmd s = .error (.messageParsingError n)) ∨
      (∃ n, parse_data_cmd s = .error (.paramArgParsingError n)) := by
  rcases consumeLit_cases ['D', 'A', 'T', 'A'] s with ⟨t1, h1⟩ | h1
  · by_cases hla : lookaheadOk t1 = true
    · rcases parse_CRLF_cases (t1.dropWhile isSP) with ⟨t2, h2⟩ | h2
      · exact Or.inl ⟨t2, by
          simp only [parse_data_cmd, h1, hla, if_true, parse_nullspace, h2,
            pseq_ok, pseq_err, asParamArgErr]⟩
      · exact Or.inr (Or.inr ⟨"CRLF", by
          simp only [parse_data_cmd, h1, hla, if_true, parse_nullspace, h2,
            pseq_ok, pseq_err, asParamArgErr]⟩)
    · exact Or.inr (Or.inl ⟨"data-cmd", by
        simp only [parse_data_cmd, h1, hla, if_false, Bool.false_eq_true]⟩)
  · exact Or.inr (Or.inl ⟨"data-cmd", by simp only [parse_data_cmd, h1]⟩)

theorem parse_quit_cmd_cases (s : List Char) :
    (∃ t, parse_quit_cmd s = .ok t) ∨
      (∃ n, parse_quit_cmd s = .error (.messageParsingError n)) ∨
      (∃ n, parse_quit_cmd s = .error (.paramArgParsingError n)) := by
  rcases consumeLit_cases ['Q', 'U', 'I', 'T'] s with ⟨t1, h1⟩ | h1
  · by_cases hla : lookaheadOk t1 = true
    · rcases parse_CRLF_cases (t1.dropWhile isSP) with ⟨t2, h2⟩ | h2
      · exact Or.inl ⟨t2, by
          simp only [parse_quit_cmd, h1, hla, if_true, parse_nullspace, h2,
            pseq_ok, pseq_err, asParamArgErr]⟩
      · exact Or.inr (Or.inr ⟨"CRLF", by
          simp only [parse_quit_cmd, h1, hla, if_true, parse_nullspace, h2,
            pseq_ok, pseq_err, asParamArgErr]⟩)
    · exact Or.inr (Or.inl ⟨"quit-cmd", by
        simp only [parse_quit_cmd, h1, hla, if_false, Bool.false_eq_true]⟩)
  · exact Or.inr (Or.inl ⟨"quit-cmd", by simp only [parse_quit_cmd, h1]⟩)

/-- Claim C5: classification is total — for every input string the
`Message` constructor terminates with exactly one assigned kind (the first
of HELO, MAIL-FROM, RCPT-TO, DATA, QUIT whose keyword block succeeds, else
Unrecognized) and never lets an exception escape: `classifyExc` always
returns `.ok`, and `classify` is its value. -/
theorem c5_classification_total (s : List Char) :
    ∃ m : Msg, classifyExc s = .ok m ∧ classify s = m := by
  unfold classify classifyExc
  rcases parse_helo_msg_cases s with ⟨t, h1⟩ | ⟨n1, h1⟩ | ⟨n1, h1⟩
  · exact ⟨⟨.helo, false⟩, by simp only [attemptAs, h1],
      by simp only [attemptAs, h1]⟩
  · rcases parse_mail_from_cmd_cases s with ⟨t, h2⟩ | ⟨n2, h2⟩ | ⟨n2, h2⟩
    · exact ⟨⟨.mailFrom, false⟩, by simp only [attemptAs, h1, h2],
        by simp only [attemptAs, h1, h2]⟩
    · rcases parse_rcpt_to_cmd_cases s with ⟨t, h3⟩ | ⟨n3, h3⟩ | ⟨n3, h3⟩
      · exact ⟨⟨.rcptTo, false⟩, by simp only [attemptAs, h1, h2, h3],
          by simp only [attemptAs, h1, h2, h3]⟩
      · rcases parse_data_cmd_cases s with ⟨t, h4⟩ | ⟨n4, h4⟩ | ⟨n4, h4⟩
        · exact ⟨⟨.data, false⟩, by simp only [attemptAs, h1, h2, h3, h4],
            by simp only [attemptAs, h1, h2, h3, h4]⟩
        · rcases parse_quit_cmd_cases s with ⟨t, h5⟩ | ⟨n5, h5⟩ | ⟨n5, h5⟩
          · exact ⟨⟨.quit, false⟩,
              by simp only [attemptAs, h1, h2, h3, h4, h5],
              by simp only [attemptAs, h1, h2, h3, h4, h5]⟩
          · exact ⟨⟨.unrecognized, false⟩,
              by simp only [attemptAs, h1, h2, h3, h4, h5],
              by simp only [attemptAs, h1, h2, h3, h4, h5]⟩
          · exact ⟨⟨.quit, true⟩,
              by simp only [attemptAs, h1, h2, h3, h4, h5],
              by simp only [attemptAs, h1, h2, h3, h4, h5]⟩
        · exact ⟨⟨.data, true⟩, by simp only [attemptAs, h1, h2, h3, h4],
            by simp only [attemptAs, h1, h2, h3, h4]⟩
      · exact ⟨⟨.rcptTo, true⟩, by simp only [attemptAs, h1, h2, h3],
          by simp only [attemptAs, h1, h2, h3]⟩
    · exact ⟨⟨.mailFrom, true⟩, by simp only [attemptAs, h1, h2],
        by simp only [attemptAs, h1, h2]⟩
  · exact ⟨⟨.helo, true⟩, by simp only [attemptAs, h1],
      by simp only [attemptAs, h1]⟩

/-! ## Claim C6 -/

theorem lookahead_token (c : Char) (rest : List Char) (h1 : c ≠ ' ')
    (h2 : c ≠ '\t') (h3 : c ≠ '\n') : lookaheadOk (c :: rest) = false := by
  simp [lookaheadOk, h1, h2, h3]

theorem isSP_token (c : Char) (h1 : c ≠ ' ') (h2 : c ≠ '\t') :
    isSP c = false := by
  simp [isSP, h1, h2]

theorem parse_whitespace_token (c : Char) (rest : List Char)
    (hc : isSP c = false) :
    parse_whitespace (c :: rest) = .error (.parsingError "whitespace") := by
  simp [parse_whitespace, consumeClass1, List.takeWhile_cons, hc]

/-- Claim C6: for each of the five command keywords, a line in which the
exact keyword is immediately followed by a further token character (not
end-of-input, space, tab or newline) classifies as Unrecognized — never as
the shorter keyword's command with `argumentsValid = false`.  HELO, DATA
and QUIT reject via the explicit one-character lookahead; MAIL and RCPT via
the mandatory whitespace after the keyword. -/
theorem c6_keyword_boundary (kw : List Char) (hkw : kw ∈ command_keywords)
    (c : Char) (rest : List Char) (h1 : c ≠ ' ') (h2 : c ≠ '\t')
    (h3 : c ≠ '\n') :
    classify (kw ++ c :: rest) = ⟨.unrecognized, false⟩ := by
  have hla := lookahead_token c rest h1 h2 h3
  have hws := parse_whitespace_token c rest (isSP_token c h1 h2)
  simp only [command_keywords, List.mem_cons, List.not_mem_nil, or_false]
    at hkw
  rcases hkw with h | h | h | h | h <;> subst h <;>
    simp only [List.cons_append, List.nil_append]
  · have hH : parse_helo_msg ('H' :: 'E' :: 'L' :: 'O' :: c :: rest) =
        .error (.messageParsingError "helo-msg") := by
      simp [parse_helo_msg, consumeLit, hla]
    have hM : parse_mail_from_cmd ('H' :: 'E' :: 'L' :: 'O' :: c :: rest) =
        .error (.messageParsingError "mail-from-cmd") := by
      simp [parse_mail_from_cmd, consumeLit, asMsgErr]
    have hR : parse_rcpt_to_cmd ('H' :: 'E' :: 'L' :: 'O' :: c :: rest) =
        .error (.messageParsingError "rcpt-to-cmd") := by
      simp [parse_rcpt_to_cmd, consumeLit, asMsgErr]
    have hD : parse_data_cmd ('H' :: 'E' :: 'L' :: 'O' :: c :: rest) =
        .error (.messageParsingError "data-cmd") := by
      simp [parse_data_cmd, consumeLit]
    have hQ : parse_quit_cmd ('H' :: 'E' :: 'L' :: 'O' :: c :: rest) =
        .error (.messageParsingError "quit-cmd") := by
      simp [parse_quit_cmd, consumeLit]
    simp [classify, classifyExc, attemptAs, hH, hM, hR, hD, hQ]
  · have hH : parse_helo_msg ('M' :: 'A' :: 'I' :: 'L' :: c :: rest) =
        .error (.messageParsingError "helo-msg") := by
      simp [parse_helo_msg, consumeLit]
    have hM : parse_mail_from_cmd ('M' :: 'A' :: 'I' :: 'L' :: c :: rest) =
        .error (.messageParsingError "whitespace") := by
      simp [parse_mail_from_cmd, consumeLit, asMsgErr, hws]
    have hR : parse_rcpt_to_cmd ('M' :: 'A' :: 'I' :: 'L' :: c :: rest) =
        .error (.messageParsingError "rcpt-to-cmd") := by
      simp [parse_rcpt_to_cmd, consumeLit, asMsgErr]
    have hD : parse_data_cmd ('M' :: 'A' :: 'I' :: 'L' :: c :: rest) =
        .error (.messageParsingError "data-cmd") := by
      simp [parse_data_cmd, consumeLit]
    have hQ : parse_quit_cmd ('M' :: 'A' :: 'I' :: 'L' :: c :: rest) =
        .error (.messageParsingError "quit-cmd") := by
      simp [parse_quit_cmd, consumeLit]
    simp [classify, classifyExc, attemptAs, hH, hM, hR, hD, hQ]
  · have hH : parse_helo_msg ('R' :: 'C' :: 'P' :: 'T' :: c :: rest) =
        .error (.messageParsingError "helo-msg") := by
      simp [parse_helo_msg, consumeLit]
    have hM : parse_mail_from_cmd ('R' :: 'C' :: 'P' :: 'T' :: c :: rest) =
        .error (.messageParsingError "mail-from-cmd") := by
      simp [parse_mail_from_cmd, consumeLit, asMsgErr]
    have hR : parse_rcpt_to_cmd ('R' :: 'C' :: 'P' :: 'T' :: c :: rest) =
        .error (.messageParsingError "whitespace") := by
      simp [parse_rcpt_to_cmd, consumeLit, asMsgErr, hws]
    have hD : parse_data_cmd ('R' :: 'C' :: 'P' :: 'T' :: c :: rest) =
        .error (.messageParsingError "data-cmd") := by
      simp [parse_data_cmd, consumeLit]
    have hQ : parse_quit_cmd ('R' :: 'C' :: 'P' :: 'T' :: c :: rest) =
        .error (.messageParsingError "quit-cmd") := by
      simp [parse_quit_cmd, consumeLit]
    simp [classify, classifyExc, attemptAs, hH, hM, hR, hD, hQ]
  · have hH : parse_helo_msg ('D' :: 'A' :: 'T' :: 'A' :: c :: rest) =
        .error (.messageParsingError "helo-msg") := by
      simp [parse_helo_msg, consumeLit]
    have hM : parse_mail_from_cmd ('D' :: 'A' :: 'T' :: 'A' :: c :: rest) =
        .error (.messageParsingError "mail-from-cmd") := by
      simp [parse_mail_from_cmd, consumeLit, asMsgErr]
    have hR : parse_rcpt_to_cmd ('D' :: 'A' :: 'T' :: 'A' :: c :: rest) =
        .error (.messageParsingError "rcpt-to-cmd") := by
      simp [parse_rcpt_to_cmd, consumeLit, asMsgErr]
    have hD : parse_data_cmd ('D' :: 'A' :: 'T' :: 'A' :: c :: rest) =
        .error (.messageParsingError "data-cmd") := by
      simp [parse_data_cmd, consumeLit, hla]
    have hQ : parse_quit_cmd ('D' :: 'A' :: 'T' :: 'A' :: c :: rest) =
        .error (.messageParsingError "quit-cmd") := by
      simp [parse_quit_cmd, consumeLit]
    simp [classify, classifyExc, attemptAs, hH, hM, hR, hD, hQ]
  · have hH : parse_helo_msg ('Q' :: 'U' :: 'I' :: 'T' :: c :: rest) =
        .error (.messageParsingError "helo-msg") := by
      simp [parse_helo_msg, consumeLit]
    have hM : parse_mail_from_cmd ('Q' :: 'U' :: 'I' :: 'T' :: c :: rest) =
        .error (.messageParsingError "mail-from-cmd") := by
      simp [parse_mail_from_cmd, consumeLit, asMsgErr]
    have hR : parse_rcpt_to_cmd ('Q' :: 'U' :: 'I' :: 'T' :: c :: rest) =
        .error (.messageParsingError "rcpt-to-cmd") := by
      simp [parse_rcpt_to_cmd, consumeLit, asMsgErr]
    have hD : parse_data_cmd ('Q' :: 'U' :: 'I' :: 'T' :: c :: rest) =
        .error (.messageParsingError "data-cmd") := by
      simp [parse_data_cmd, consumeLit]
    have hQ : parse_quit_cmd ('Q' :: 'U' :: 'I' :: 'T' :: c :: rest) =
        .error (.messageParsingError "quit-cmd") := by
      simp [parse_quit_cmd, consumeLit, hla]
    simp [classify, classifyExc, attemptAs, hH, hM, hR, hD, hQ]

/-- Witness for C6 at the example of the claim: `"HELOX\n"` classifies as
Unrecognized with the parameter-error flag clear. -/
theorem c6_keyword_boundary_witness :
    classify (['H', 'E', 'L', 'O'] ++ 'X' :: ['\n']) =
      ⟨.unrecognized, false⟩ :=
  c6_keyword_boundary ['H', 'E', 'L', 'O'] (by decide) 'X' ['\n']
    (by decide) (by decide) (by decide)

/-! ## Claim C7 -/

theorem domLoop_cons (c : Char) (r : List Char) :
    domLoop (c :: r) =
      if isAlnumChar c then domLoop r
      else if c = '.' then
        match r with
        | [] => c :: r
        | d :: r2 => if isLetterChar d then domLoop r2 else c :: r
      else c :: r := by
  rw [domLoop.eq_def]

theorem domLoop_alnum (b t : List Char) (h : b.all isAlnumChar = true) :
    domLoop (b ++ t) = domLoop t := by
  induction b with
  | nil => rfl
  | cons a b ih =>
    simp only [List.all_cons, Bool.and_eq_true] at h
    rw [List.cons_append, domLoop_cons, if_pos h.1]
    exact ih h.2

theorem domLoop_stars (elems : List (List Char))
    (h : elems.all validElemB = true) :
    domLoop ((elems.map (fun x => '.' :: x)).join ++ ['>']) = ['>'] := by
  induction elems with
  | nil => decide
  | cons e rest ih =>
    simp only [List.all_cons, Bool.and_eq_true] at h
    cases e with
    | nil => simp [validElemB] at h
    | cons c b =>
      have hc : isLetterChar c = true ∧ b.all isAlnumChar = true := by
        simpa [validElemB] using h.1
      have hcal : isAlnumChar '.' = false := by decide
      simp only [List.map_cons, List.join, List.flatten_cons,
        List.cons_append, List.append_assoc]
      rw [domLoop_cons, hcal]
      simp only [Bool.false_eq_true, if_false, if_pos rfl]
      rw [if_pos hc.1, domLoop_alnum b _ hc.2]
      simpa [List.append_assoc] using ih h.2

theorem parse_domain_render (elems : List (List Char)) (h1 : elems ≠ [])
    (h2 : elems.all validElemB = true) :
    parse_domain (renderDomain elems ++ ['>']) = .ok ['>'] := by
  cases elems with
  | nil => exact absurd rfl h1
  | cons e rest =>
    simp only [List.all_cons, Bool.and_eq_true] at h2
    cases e with
    | nil => simp [validElemB] at h2
    | cons c b =>
      have hc : isLetterChar c = true ∧ b.all isAlnumChar = true := by
        simpa [validElemB] using h2.1
      simp only [renderDomain, List.cons_append, List.append_assoc]
      rw [parse_domain]
      simp only [hc.1, if_true]
      rw [domLoop_alnum b _ hc.2, domLoop_stars rest h2.2]

/-- Claim C7: for every valid mailbox `local@domain` (local a non-empty
string of printable ASCII characters excluding the special characters,
space and tab; domain a non-empty dot-separated sequence of alphanumeric
elements each beginning with a letter), the `path` production parses the
rendered `<local@domain>` successfully and consumes exactly the whole
rendered string — the remainder is empty, so the parse covers exactly that
mailbox and nothing else (the code-level form of the round-trip, since the
parsing functions validate by consumption and return no value). -/
theorem c7_path_roundtrip (lp : List Char) (elems : List (List Char))
    (hl1 : lp ≠ []) (hl2 : lp.all isMailboxLocalChar = true)
    (he1 : elems ≠ []) (he2 : elems.all validElemB = true) :
    parse_path (render_path lp elems) = .ok [] := by
  have hstr : lp.all isStringChar = true := by
    simp only [List.all_eq_true] at hl2 ⊢
    intro c hc
    have hcc := hl2 c hc
    simp only [isMailboxLocalChar, Bool.and_eq_true] at hcc
    exact hcc.2
  have hat : List.takeWhile isStringChar
      ('@' :: (renderDomain elems ++ ['>'])) = [] := by
    have h0 : isStringChar '@' = false := by decide
    simp [List.takeWhile_cons, h0]
  have hps : parse_string (lp ++ '@' :: (renderDomain elems ++ ['>'])) =
      .ok ('@' :: (renderDomain elems ++ ['>'])) := by
    rw [parse_string, consumeClass1_strip isStringChar lp _ hstr hl1 hat]
  have hdom := parse_domain_render elems he1 he2
  rw [render_path, parse_path]
  have hlt : consumeLit ['<']
      ('<' :: (lp ++ '@' :: (renderDomain elems ++ ['>']))) =
      .ok (lp ++ '@' :: (renderDomain elems ++ ['>'])) := by
    simp [consumeLit]
  rw [hlt]
  simp only [pseq_ok]
  rw [parse_mailbox, parse_local_part, hps]
  simp only [pseq_ok]
  have hat2 : consumeLit ['@'] ('@' :: (renderDomain elems ++ ['>'])) =
      .ok (renderDomain elems ++ ['>']) := by simp [consumeLit]
  rw [hat2]
  simp only [pseq_ok, hdom]
  simp [consumeLit]

/-- Witness for C7 at the mailbox `a@x.com`: parsing `<a@x.com>` consumes
the whole rendering. -/
theorem c7_path_roundtrip_witness :
    parse_path (render_path ("a".toList) [['x'], ['c', 'o', 'm']]) = .ok [] :=
  c7_path_roundtrip ("a".toList) [['x'], ['c', 'o', 'm']] (by decide)
    (by decide) (by decide) (by decide)

/-! ## Claim C9 -/

theorem getD_zero_headD (l : List (List Char)) : l.getD 0 [] = l.headD [] := by
  cases l <;> rfl

theorem getD_succ_tail (l : List (List Char)) (i : Nat) :
    l.getD (i + 1) [] = l.tail.getD i [] := by
  cases l <;> rfl

theorem runLockStep_all_ok (stages : List Stage) (resps : List (List Char))
    (h : ∀ i, (hi : i < stages.length) →
      (stages.get ⟨i, hi⟩).2 (resps.getD i []) = true) :
    runLockStep stages resps = ((stages.map Prod.fst).join, none) := by
  induction stages generalizing resps with
  | nil => simp [runLockStep]
  | cons st stages ih =>
    obtain ⟨outs, chk⟩ := st
    have h0 : chk (resps.headD []) = true := by
      have h1 := h 0 (by simp)
      rw [getD_zero_headD] at h1
      exact h1
    rw [List.headD_eq_head?_getD] at h0
    have ih2 := ih resps.tail (fun i hi => by
      have h1 := h (i + 1) (by simpa using Nat.succ_lt_succ hi)
      rw [getD_succ_tail] at h1
      exact h1)
    simp [runLockStep, h0, ih2]

theorem runLockStep_first_fail (stages : List Stage)
    (resps : List (List Char)) (k : Nat) (hk : k < stages.length)
    (hok : ∀ i, i < k → (hi : i < stages.length) →
      (stages.get ⟨i, hi⟩).2 (resps.getD i []) = true)
    (hfail : (stages.get ⟨k, hk⟩).2 (resps.getD k []) = false) :
    runLockStep stages resps =
      (((stages.take (k + 1)).map Prod.fst).join,
        some .smtpBreakOfProtocol) := by
  induction stages generalizing resps k with
  | nil => exact absurd hk (by simp)
  | cons st stages ih =>
    obtain ⟨outs, chk⟩ := st
    cases k with
    | zero =>
      rw [getD_zero_headD] at hfail
      simp only [List.get] at hfail
      rw [List.headD_eq_head?_getD] at hfail
      simp [runLockStep, hfail]
    | succ k =>
      have h0 : chk (resps.headD []) = true := by
        have h1 := hok 0 (Nat.succ_pos k) (by simp)
        rw [getD_zero_headD] at h1
        exact h1
      rw [List.headD_eq_head?_getD] at h0
      have hk2 : k < stages.length := Nat.lt_of_succ_lt_succ hk
      have hfail2 : (stages.get ⟨k, hk2⟩).2 (resps.tail.getD k []) = false := by
        rw [← getD_succ_tail]
        exact hfail
      have hok2 : ∀ i, i < k → (hi : i < stages.length) →
          (stages.get ⟨i, hi⟩).2 (resps.tail.getD i []) = true := by
        intro i hik hi
        rw [← getD_succ_tail]
        exact hok (i + 1) (Nat.succ_lt_succ hik) (Nat.succ_lt_succ hi)
      have ih2 := ih resps.tail k hk2 hok2 hfail2
      simp [runLockStep, h0, ih2]

theorem join_singletons (f : List Char → List Char) (chk : List Char → Bool)
    (l : List (List Char)) :
    (List.map (Prod.fst ∘ fun v => ([f v], chk)) l).flatten = List.map f l := by
  induction l with
  | nil => rfl
  | cons a l ih => simp [ih]

/-- Claim C9: the Conversation Driver performs exactly the lock-step
exchange — expect the 220 greeting, send HELO expecting 250, send MAIL FROM
expecting 250, send one RCPT TO per forward-path in order expecting 250
after each, send DATA expecting 354, send all data lines then the
end-of-data marker expecting one 250, send QUIT expecting 221 (first
conjunct: when every received response matches its expected response-code
grammar, the messages sent are exactly that sequence and no failure is
raised) — and the first received response failing its expected grammar
aborts the conversation with the protocol-violation failure surfaced to the
caller and nothing after that stage sent: no retry (second conjunct). -/
theorem c9_lockstep (fqdn rp : List Char) (fps dls resps : List (List Char)) :
    ((∀ i, (hi : i < (driverScript fqdn rp fps dls).length) →
        ((driverScript fqdn rp fps dls).get ⟨i, hi⟩).2 (resps.getD i []) =
          true) →
      driverSend fqdn rp fps dls resps =
        (driverAllMsgs fqdn rp fps dls, none)) ∧
    (∀ k, (hk : k < (driverScript fqdn rp fps dls).length) →
      (∀ i, i < k → (hi : i < (driverScript fqdn rp fps dls).length) →
        ((driverScript fqdn rp fps dls).get ⟨i, hi⟩).2 (resps.getD i []) =
          true) →
      ((driverScript fqdn rp fps dls).get ⟨k, hk⟩).2 (resps.getD k []) =
        false →
      driverSend fqdn rp fps dls resps =
        ((((driverScript fqdn rp fps dls).take (k + 1)).map Prod.fst).join,
          some .smtpBreakOfProtocol)) := by
  constructor
  · intro h
    rw [driverSend, runLockStep_all_ok _ resps h]
    simp [driverScript, driverAllMsgs, List.map_append, List.map_map,
      Function.comp, join_singletons]
  · intro k hk hok hfail
    rw [driverSend, runLockStep_first_fail _ resps k hk hok hfail]

/-- Witness for C9 with one forward path and one data line: a fully valid
response script yields exactly the expected message sequence with no
failure, and a malformed greeting aborts at once with the
protocol-violation failure and nothing sent. -/
theorem c9_lockstep_witness :
    driverSend ("h".toList) ("<a@x.com>".toList) ["<b@y.com>".toList]
        ["L\n".toList]
        ["220 x\n".toList, "250 a\n".toList, "250 b\n".toList,
          "250 c\n".toList, "354 d\n".toList, "250 e\n".toList,
          "221 f\n".toList] =
      (driverAllMsgs ("h".toList) ("<a@x.com>".toList) ["<b@y.com>".toList]
        ["L\n".toList], none) ∧
    driverSend ("h".toList) ("<a@x.com>".toList) ["<b@y.com>".toList]
        ["L\n".toList] ["999 bad\n".toList] =
      ([], some .smtpBreakOfProtocol) := by
  constructor
  · exact (c9_lockstep ("h".toList) ("<a@x.com>".toList)
      ["<b@y.com>".toList] ["L\n".toList] _).1 (by decide)
  · have h := (c9_lockstep ("h".toList) ("<a@x.com>".toList)
      ["<b@y.com>".toList] ["L\n".toList] ["999 bad\n".toList]).2 0
      (by decide) (fun i h => absurd h (Nat.not_lt_zero i)) (by decide)
    simpa [driverScript] using h
